import Mathlib

/-
Verification development for the certificate-trust verification layer
(rustls, src/rustls/src/verify.rs).

The file shallow-embeds the functions of verify.rs.  External
collaborators (the webpki path-validation and signature engine, the sct
Certificate-Transparency engine, the system clock) are passed in as
parameters, exactly at the interfaces verify.rs uses; their result types
are kept opaque apart from what verify.rs inspects (error classification,
success payloads).
-/

/-- Modelled from the spec: the `SignatureScheme` enumeration lives in
`msgs/enums.rs`, which is not part of the provided sources.  The spec's
allow-lists (section 4.2) name eight schemes: ECDSA P-256/P-384,
RSA-PKCS1 SHA-256/384/512 and RSA-PSS SHA-256/384/512; every other code
point (the spec's "…") is represented by the `Unknown` constructor,
which the gates in verify.rs treat uniformly through their wildcard
match arm. -/
inductive SignatureScheme where
  | ECDSA_NISTP256_SHA256
  | ECDSA_NISTP384_SHA384
  | RSA_PKCS1_SHA256
  | RSA_PKCS1_SHA384
  | RSA_PKCS1_SHA512
  | RSA_PSS_SHA256
  | RSA_PSS_SHA384
  | RSA_PSS_SHA512
  | Unknown (code : Nat)
  deriving DecidableEq

/-- Modelled from the spec: the derived `Debug` rendering of a scheme,
used by the gates' error messages (`format!("... {:?}", scheme)`). -/
def SignatureScheme.debugFmt : SignatureScheme → String
  | .ECDSA_NISTP256_SHA256 => "ECDSA_NISTP256_SHA256"
  | .ECDSA_NISTP384_SHA384 => "ECDSA_NISTP384_SHA384"
  | .RSA_PKCS1_SHA256 => "RSA_PKCS1_SHA256"
  | .RSA_PKCS1_SHA384 => "RSA_PKCS1_SHA384"
  | .RSA_PKCS1_SHA512 => "RSA_PKCS1_SHA512"
  | .RSA_PSS_SHA256 => "RSA_PSS_SHA256"
  | .RSA_PSS_SHA384 => "RSA_PSS_SHA384"
  | .RSA_PSS_SHA512 => "RSA_PSS_SHA512"
  | .Unknown code => "Unknown(" ++ toString code ++ ")"

/-- Opaque error of the external webpki engine (verify.rs only wraps it). -/
structure WebpkiError where
  code : Nat
  deriving DecidableEq

/-- Opaque error of the external sct engine; verify.rs inspects only its
fatal / non-fatal classification (`should_be_fatal`). -/
structure SctError where
  code : Nat
  fatal : Bool
  deriving DecidableEq

/-- The external sct engine's classification of an error, as consumed by
`verify_scts`. -/
def SctError.should_be_fatal (e : SctError) : Bool := e.fatal

/-- Modelled from the spec: the error taxonomy (spec section 7); the
constructors are exactly the `TLSError` variants verify.rs produces
(`error.rs` is not part of the provided sources). -/
inductive TLSError where
  | NoCertificatesPresented
  | WebPKIError (e : WebpkiError)
  | PeerMisbehavedError (msg : String)
  | FailedToGetCurrentTime
  | InvalidSCT (e : SctError)
  deriving DecidableEq

/-- `Certificate` is an opaque byte-encoded credential (`pub struct
Certificate(pub Vec<u8>)`). -/
structure Certificate where
  bytes : List Nat
  deriving DecidableEq

/-- One signed-certificate-timestamp record; opaque bytes at this layer. -/
structure Sct where
  bytes : List Nat
  deriving DecidableEq

/-- A trusted Certificate-Transparency log, opaque at this layer. -/
structure SctLog where
  id : Nat
  deriving DecidableEq

/-- The trust-anchor store: a list of roots of the caller's (opaque)
owned-trust-anchor representation `R`. -/
structure RootCertStore (R : Type) where
  roots : List R

/-- Pairs a signature scheme identifier with raw signature bytes
(`dss.scheme`, `dss.sig.0`). -/
structure DigitallySignedStruct where
  scheme : SignatureScheme
  sig : List Nat
  deriving DecidableEq

/-- Proof token: a handshake signature was verified
(`pub struct HandshakeSignatureValid(())`). -/
structure HandshakeSignatureValid where
  token : Unit
  deriving DecidableEq

def HandshakeSignatureValid.assertion : HandshakeSignatureValid := ⟨()⟩

/-- Proof token: a Finished message was verified
(`pub struct FinishedMessageVerified(())`). -/
structure FinishedMessageVerified where
  token : Unit
  deriving DecidableEq

def FinishedMessageVerified.assertion : FinishedMessageVerified := ⟨()⟩

/-- Proof token: a server certificate chain was verified
(`pub struct ServerCertVerified(())`). -/
structure ServerCertVerified where
  token : Unit
  deriving DecidableEq

def ServerCertVerified.assertion : ServerCertVerified := ⟨()⟩

/-- Proof token: a client certificate chain was verified
(`pub struct ClientCertVerified(())`). -/
structure ClientCertVerified where
  token : Unit
  deriving DecidableEq

def ClientCertVerified.assertion : ClientCertVerified := ⟨()⟩

/-- The names of the webpki signature-verification algorithms referenced
by the `SUPPORTED_SIG_ALGS` static. -/
inductive WebpkiSigAlg where
  | ECDSA_P256_SHA256
  | ECDSA_P256_SHA384
  | ECDSA_P384_SHA256
  | ECDSA_P384_SHA384
  | RSA_PSS_2048_8192_SHA256_LEGACY_KEY
  | RSA_PSS_2048_8192_SHA384_LEGACY_KEY
  | RSA_PSS_2048_8192_SHA512_LEGACY_KEY
  | RSA_PKCS1_2048_8192_SHA256
  | RSA_PKCS1_2048_8192_SHA384
  | RSA_PKCS1_2048_8192_SHA512
  | RSA_PKCS1_3072_8192_SHA384
  deriving DecidableEq

/-- The `SUPPORTED_SIG_ALGS` static of verify.rs, in source order. -/
def SUPPORTED_SIG_ALGS : List WebpkiSigAlg :=
  [ .ECDSA_P256_SHA256
  , .ECDSA_P256_SHA384
  , .ECDSA_P384_SHA256
  , .ECDSA_P384_SHA384
  , .RSA_PSS_2048_8192_SHA256_LEGACY_KEY
  , .RSA_PSS_2048_8192_SHA384_LEGACY_KEY
  , .RSA_PSS_2048_8192_SHA512_LEGACY_KEY
  , .RSA_PKCS1_2048_8192_SHA256
  , .RSA_PKCS1_2048_8192_SHA384
  , .RSA_PKCS1_2048_8192_SHA512
  , .RSA_PKCS1_3072_8192_SHA384 ]

/-- The interface of the external webpki engine as consumed by
verify.rs: end-entity parsing, chain validation for server and client
usage, DNS-name binding, and the caller's trust-anchor conversion
(`OwnedTrustAnchor::to_trust_anchor`).  `EE` is the engine's parsed
end-entity certificate type, `TA` its trust-anchor type, `Time` its time
representation and `R` the store's owned-root type; all are opaque to
verify.rs. -/
structure WebpkiEngine (EE TA Time R : Type) where
  endEntityCertFrom : List Nat → Except WebpkiError EE
  verifyIsValidTlsServerCert :
    EE → List WebpkiSigAlg → List TA → List (List Nat) → Time → Except WebpkiError Unit
  verifyIsValidTlsClientCert :
    EE → List WebpkiSigAlg → List TA → List (List Nat) → Time → Except WebpkiError Unit
  verifyIsValidForDnsName : EE → String → Except WebpkiError Unit
  toTrustAnchor : R → TA

/-- `fn prepare(roots, presented_certs)` of verify.rs: fail on an empty
chain; parse the first element as the end-entity certificate (wrapping a
parse failure); the remaining elements, in order, are the intermediate
chain; every root is converted, preserving iteration order. -/
def prepare {EE TA Time R : Type} (eng : WebpkiEngine EE TA Time R)
    (roots : RootCertStore R) (presented_certs : List Certificate) :
    Except TLSError (EE × List (List Nat) × List TA) :=
  match presented_certs with
  | [] => .error TLSError.NoCertificatesPresented
  | c :: rest =>
    match eng.endEntityCertFrom c.bytes with
    | .error e => .error (TLSError.WebPKIError e)
    | .ok cert =>
      .ok (cert, rest.map Certificate.bytes, roots.roots.map eng.toTrustAnchor)

/-- `WebPKIVerifier`: the built-in server verifier with its injectable
time source (`pub time: fn() -> Result<webpki::Time, TLSError>`). -/
structure WebPKIVerifier (Time : Type) where
  time : Unit → Except TLSError Time

/-- `WebPKIVerifier::verify_server_cert`: prepare the chain, read the
clock, validate the chain as a TLS server certificate against the trust
anchors, then bind the DNS name; each engine failure is wrapped in
`TLSError::WebPKIError`, and the token is produced only after the name
check.  The OCSP response is only logged, never validated. -/
def WebPKIVerifier.verify_server_cert {EE TA Time R : Type}
    (eng : WebpkiEngine EE TA Time R) (v : WebPKIVerifier Time)
    (roots : RootCertStore R) (presented_certs : List Certificate)
    (dns_name : String) (_ocsp_response : List Nat) :
    Except TLSError ServerCertVerified :=
  match prepare eng roots presented_certs with
  | .error e => .error e
  | .ok (cert, chain, trustroots) =>
    match v.time () with
    | .error e => .error e
    | .ok now =>
      match eng.verifyIsValidTlsServerCert cert SUPPORTED_SIG_ALGS trustroots chain now with
      | .error e => .error (TLSError.WebPKIError e)
      | .ok _ =>
        match eng.verifyIsValidForDnsName cert dns_name with
        | .error e => .error (TLSError.WebPKIError e)
        | .ok _ => .ok ServerCertVerified.assertion

/-- `AllowAnyAuthenticatedClient`: holds the trust-anchor store. -/
structure AllowAnyAuthenticatedClient (R : Type) where
  roots : RootCertStore R

/-- `AllowAnyAuthenticatedClient::verify_client_cert`: prepare the
chain, read the clock (`try_now`), validate the chain as a TLS client
certificate; no name binding.  The clock is a parameter here because the
source calls the ambient `try_now()`. -/
def AllowAnyAuthenticatedClient.verify_client_cert {EE TA Time R : Type}
    (eng : WebpkiEngine EE TA Time R) (try_now : Unit → Except TLSError Time)
    (v : AllowAnyAuthenticatedClient R) (presented_certs : List Certificate)
    (_sni : Option String) :
    Except TLSError ClientCertVerified :=
  match prepare eng v.roots presented_certs with
  | .error e => .error e
  | .ok (cert, chain, trustroots) =>
    match try_now () with
    | .error e => .error e
    | .ok now =>
      match eng.verifyIsValidTlsClientCert cert SUPPORTED_SIG_ALGS trustroots chain now with
      | .error e => .error (TLSError.WebPKIError e)
      | .ok _ => .ok ClientCertVerified.assertion

/-- `fn convert_scheme`: the TLS-1.2 scheme gate.  Accepts the two ECDSA
schemes, the three PKCS1 schemes and the three PSS schemes; everything
else is a peer-misbehaved error naming the scheme. -/
def convert_scheme (scheme : SignatureScheme) : Except TLSError Unit :=
  match scheme with
  | .ECDSA_NISTP256_SHA256
  | .ECDSA_NISTP384_SHA384
  | .RSA_PKCS1_SHA256
  | .RSA_PKCS1_SHA384
  | .RSA_PKCS1_SHA512
  | .RSA_PSS_SHA256
  | .RSA_PSS_SHA384
  | .RSA_PSS_SHA512 => .ok ()
  | _ =>
    .error (TLSError.PeerMisbehavedError
      ("received unadvertised sig scheme " ++ scheme.debugFmt))

/-- `fn convert_alg_tls13`: the TLS-1.3 scheme gate.  Accepts the two
ECDSA schemes and the three PSS schemes; everything else (PKCS1
included) is a peer-misbehaved error naming the scheme. -/
def convert_alg_tls13 (scheme : SignatureScheme) : Except TLSError Unit :=
  match scheme with
  | .ECDSA_NISTP256_SHA256
  | .ECDSA_NISTP384_SHA384
  | .RSA_PSS_SHA256
  | .RSA_PSS_SHA384
  | .RSA_PSS_SHA512 => .ok ()
  | _ =>
    .error (TLSError.PeerMisbehavedError
      ("received unsupported sig scheme " ++ scheme.debugFmt))

/-- `fn verify_signed_struct`: gate the scheme for TLS 1.2, then ask the
external signature engine (x509::verify_certificate_signature with
tls13 = false) and wrap its failure. -/
def verify_signed_struct
    (verify_certificate_signature :
      List Nat → List Nat → List Nat → SignatureScheme → Bool → Except WebpkiError Unit)
    (message : List Nat) (cert : Certificate) (dss : DigitallySignedStruct) :
    Except TLSError HandshakeSignatureValid :=
  match convert_scheme dss.scheme with
  | .error e => .error e
  | .ok _ =>
    match verify_certificate_signature dss.sig message cert.bytes dss.scheme false with
    | .error e => .error (TLSError.WebPKIError e)
    | .ok _ => .ok HandshakeSignatureValid.assertion

/-- `Vec::resize(new_len, value)`: truncate when shrinking, pad with
`value` when growing. -/
def vecResize (v : List Nat) (new_len : Nat) (value : Nat) : List Nat :=
  if new_len ≤ v.length then v.take new_len
  else v ++ List.replicate (new_len - v.length) value

/-- `fn verify_tls13`: gate the scheme for TLS 1.3, build the signed
payload (an empty vector resized to 64 bytes of 0x20, then the context
string, then the transcript hash), and ask the external signature
engine (tls13 = true), wrapping its failure. -/
def verify_tls13
    (verify_certificate_signature :
      List Nat → List Nat → List Nat → SignatureScheme → Bool → Except WebpkiError Unit)
    (cert : Certificate) (dss : DigitallySignedStruct)
    (handshake_hash : List Nat) (context_string_with_0 : List Nat) :
    Except TLSError HandshakeSignatureValid :=
  match convert_alg_tls13 dss.scheme with
  | .error e => .error e
  | .ok _ =>
    let msg := vecResize [] 64 0x20 ++ context_string_with_0 ++ handshake_hash
    match verify_certificate_signature dss.sig msg cert.bytes dss.scheme true with
    | .error e => .error (TLSError.WebPKIError e)
    | .ok _ => .ok HandshakeSignatureValid.assertion

/-- The `for sct in scts` loop of `verify_scts`: `f` is the external sct
engine applied to (cert, record, now, logs); the accumulator carries
`valid_scts` and `last_sct_error`.  A fatal-classified failure aborts
with `InvalidSCT`; a success bumps the count; a non-fatal failure is
remembered as the last error. -/
def sctLoop (f : Sct → Except SctError Nat) :
    List Sct → Nat → Option SctError → Except TLSError (Nat × Option SctError)
  | [], valid_scts, last_sct_error => .ok (valid_scts, last_sct_error)
  | s :: rest, valid_scts, last_sct_error =>
    match f s with
    | .ok _ => sctLoop f rest (valid_scts + 1) last_sct_error
    | .error e =>
      if e.should_be_fatal then .error (TLSError.InvalidSCT e)
      else sctLoop f rest valid_scts (some e)

/-- `fn verify_scts`: read the clock (`unix_time_millis`, a parameter
here), run the per-record loop, and afterwards fail with the last
recorded non-fatal error when logs and SCTs were both supplied but none
validated.  The source unwraps `last_sct_error` in that branch; the
`none` case is unreachable there (see `sctErrFold_some_of_no_valid`)
and is given an arbitrary error value. -/
def verify_scts
    (verify_sct : List Nat → List Nat → Nat → List SctLog → Except SctError Nat)
    (unix_time_millis : Except TLSError Nat)
    (cert : Certificate) (scts : List Sct) (logs : List SctLog) :
    Except TLSError Unit :=
  match unix_time_millis with
  | .error e => .error e
  | .ok now =>
    match sctLoop (fun s => verify_sct cert.bytes s.bytes now logs) scts 0 none with
    | .error e => .error e
    | .ok (valid_scts, last_sct_error) =>
      if logs ≠ [] ∧ scts ≠ [] ∧ valid_scts = 0 then
        match last_sct_error with
        | some e => .error (TLSError.InvalidSCT e)
        | none => .error (TLSError.InvalidSCT ⟨0, true⟩)
      else .ok ()

/-- `fn supported_verify_schemes`, in source order. -/
def supported_verify_schemes : List SignatureScheme :=
  [ .ECDSA_NISTP384_SHA384
  , .ECDSA_NISTP256_SHA256
  , .RSA_PSS_SHA512
  , .RSA_PSS_SHA384
  , .RSA_PSS_SHA256
  , .RSA_PKCS1_SHA512
  , .RSA_PKCS1_SHA384
  , .RSA_PKCS1_SHA256 ]

/-- Spec-side (section 4.2): the TLS-1.2 allow-list, "ECDSA P-256/P-384,
RSA-PKCS1, RSA-PSS". -/
def tls12AllowList : List SignatureScheme :=
  [ .ECDSA_NISTP256_SHA256, .ECDSA_NISTP384_SHA384
  , .RSA_PKCS1_SHA256, .RSA_PKCS1_SHA384, .RSA_PKCS1_SHA512
  , .RSA_PSS_SHA256, .RSA_PSS_SHA384, .RSA_PSS_SHA512 ]

/-- Spec-side: the scheme is one of the ECDSA schemes of the
enumeration (the spec's ECDSA P-256/P-384 family). -/
def SignatureScheme.isEcdsa : SignatureScheme → Bool
  | .ECDSA_NISTP256_SHA256 | .ECDSA_NISTP384_SHA384 => true
  | _ => false

/-- Spec-side: the scheme is one of the RSA-PSS schemes. -/
def SignatureScheme.isPss : SignatureScheme → Bool
  | .RSA_PSS_SHA256 | .RSA_PSS_SHA384 | .RSA_PSS_SHA512 => true
  | _ => false

/-- Spec-side: the scheme is one of the RSA-PKCS1 schemes. -/
def SignatureScheme.isPkcs1 : SignatureScheme → Bool
  | .RSA_PKCS1_SHA256 | .RSA_PKCS1_SHA384 | .RSA_PKCS1_SHA512 => true
  | _ => false

/-- How many records of the list the engine validates. -/
def sctValidCount (f : Sct → Except SctError Nat) : List Sct → Nat
  | [] => 0
  | s :: rest =>
    match f s with
    | .ok _ => sctValidCount f rest + 1
    | .error _ => sctValidCount f rest

/-- The `last_sct_error` accumulator after folding the list, starting
from `last`. -/
def sctErrFold (f : Sct → Except SctError Nat) (last : Option SctError) :
    List Sct → Option SctError
  | [] => last
  | s :: rest =>
    match f s with
    | .ok _ => sctErrFold f last rest
    | .error e => sctErrFold f (some e) rest

/-- The last error the engine reports on the list, if any. -/
def sctLastError (f : Sct → Except SctError Nat) (scts : List Sct) :
    Option SctError :=
  sctErrFold f none scts

theorem sctLoop_ok_of_no_fatal (f : Sct → Except SctError Nat) (scts : List Sct)
    (h : ∀ s ∈ scts, ∀ e, f s = .error e → e.should_be_fatal = false) :
    ∀ valid last, sctLoop f scts valid last =
      .ok (valid + sctValidCount f scts, sctErrFold f last scts) := by
  induction scts with
  | nil => intro valid last; simp [sctLoop, sctValidCount, sctErrFold]
  | cons s rest ih =>
    intro valid last
    have hs := h s (List.mem_cons_self s rest)
    have hrest : ∀ x ∈ rest, ∀ e, f x = .error e → e.should_be_fatal = false :=
      fun x hx => h x (List.mem_cons_of_mem s hx)
    cases hfs : f s with
    | ok n =>
      rw [sctLoop, hfs, ih hrest (valid + 1) last]
      simp only [sctValidCount, sctErrFold, hfs, Except.ok.injEq, Prod.mk.injEq]
      refine ⟨by omega, trivial⟩
    | error e =>
      have hnf : e.should_be_fatal = false := hs e hfs
      rw [sctLoop, hfs]
      simp only [hnf]
      rw [ih hrest valid (some e)]
      simp [sctValidCount, sctErrFold, hfs]

theorem sctErrFold_of_some (f : Sct → Except SctError Nat) (rest : List Sct) :
    ∀ e, ∃ e2, sctErrFold f (some e) rest = some e2 := by
  induction rest with
  | nil => intro e; exact ⟨e, rfl⟩
  | cons s r ih =>
    intro e
    cases hfs : f s with
    | ok n =>
      obtain ⟨e2, he2⟩ := ih e
      exact ⟨e2, by rw [sctErrFold, hfs]; exact he2⟩
    | error e1 =>
      obtain ⟨e2, he2⟩ := ih e1
      exact ⟨e2, by rw [sctErrFold, hfs]; exact he2⟩

theorem sctErrFold_some_of_no_valid (f : Sct → Except SctError Nat) (scts : List Sct)
    (hne : scts ≠ []) (hzero : sctValidCount f scts = 0) :
    ∃ e, sctLastError f scts = some e := by
  cases scts with
  | nil => exact absurd rfl hne
  | cons s rest =>
    cases hfs : f s with
    | ok n =>
      exfalso
      simp only [sctValidCount, hfs] at hzero
      omega
    | error e =>
      obtain ⟨e2, he2⟩ := sctErrFold_of_some f rest e
      exact ⟨e2, by rw [sctLastError, sctErrFold, hfs]; exact he2⟩

theorem sctLoop_fatal (f : Sct → Except SctError Nat) (pre : List Sct) (s : Sct)
    (post : List Sct) (e : SctError)
    (hpre : ∀ x ∈ pre, ∀ e2, f x = .error e2 → e2.should_be_fatal = false)
    (hs : f s = .error e) (hf : e.should_be_fatal = true) :
    ∀ valid last, sctLoop f (pre ++ s :: post) valid last =
      .error (TLSError.InvalidSCT e) := by
  induction pre with
  | nil => intro valid last; simp [sctLoop, hs, hf]
  | cons x rest ih =>
    intro valid last
    have hrest : ∀ y ∈ rest, ∀ e2, f y = .error e2 → e2.should_be_fatal = false :=
      fun y hy => hpre y (List.mem_cons_of_mem x hy)
    cases hfx : f x with
    | ok n =>
      rw [List.cons_append, sctLoop, hfx]
      exact ih hrest (valid + 1) last
    | error e2 =>
      have hnf : e2.should_be_fatal = false := hpre x (List.mem_cons_self x rest) e2 hfx
      rw [List.cons_append, sctLoop, hfx]
      simp only [hnf]
      exact ih hrest valid (some e2)

/-- Claim C3: the TLS-1.2 gate accepts a scheme iff it is in the fixed
allow-list (ECDSA P-256/P-384, RSA-PKCS1, RSA-PSS); the TLS-1.3 gate
accepts a scheme iff it is ECDSA or RSA-PSS; every RSA-PKCS1 scheme is
accepted by the 1.2 gate and rejected by the 1.3 gate; every unlisted
scheme is rejected with a peer-misbehaved error naming the scheme; both
gates are total, returning on every scheme either acceptance or that
error (no panics). -/
theorem C3_scheme_gates (s : SignatureScheme) :
    (convert_scheme s = .ok () ↔ s ∈ tls12AllowList) ∧
    (convert_alg_tls13 s = .ok () ↔ (s.isEcdsa = true ∨ s.isPss = true)) ∧
    (s.isPkcs1 = true →
      convert_scheme s = .ok () ∧
      convert_alg_tls13 s = .error (TLSError.PeerMisbehavedError
        ("received unsupported sig scheme " ++ s.debugFmt))) ∧
    (s ∉ tls12AllowList →
      convert_scheme s = .error (TLSError.PeerMisbehavedError
        ("received unadvertised sig scheme " ++ s.debugFmt))) ∧
    (¬ (s.isEcdsa = true ∨ s.isPss = true) →
      convert_alg_tls13 s = .error (TLSError.PeerMisbehavedError
        ("received unsupported sig scheme " ++ s.debugFmt))) ∧
    (convert_scheme s = .ok () ∨
      convert_scheme s = .error (TLSError.PeerMisbehavedError
        ("received unadvertised sig scheme " ++ s.debugFmt))) ∧
    (convert_alg_tls13 s = .ok () ∨
      convert_alg_tls13 s = .error (TLSError.PeerMisbehavedError
        ("received unsupported sig scheme " ++ s.debugFmt))) := by
  cases s <;>
    simp [convert_scheme, convert_alg_tls13, tls12AllowList,
      SignatureScheme.isEcdsa, SignatureScheme.isPss, SignatureScheme.isPkcs1,
      SignatureScheme.debugFmt]

/-- Claim C3, witness: the gates evaluated at concrete schemes
(a PKCS1 scheme and an unlisted code point). -/
theorem C3_scheme_gates_witness :
    convert_scheme SignatureScheme.RSA_PKCS1_SHA256 = .ok () ∧
    convert_alg_tls13 SignatureScheme.RSA_PKCS1_SHA256 =
      .error (TLSError.PeerMisbehavedError
        ("received unsupported sig scheme " ++
          SignatureScheme.RSA_PKCS1_SHA256.debugFmt)) ∧
    convert_scheme (SignatureScheme.Unknown 9) =
      .error (TLSError.PeerMisbehavedError
        ("received unadvertised sig scheme " ++
          (SignatureScheme.Unknown 9).debugFmt)) := by
  refine ⟨((C3_scheme_gates SignatureScheme.RSA_PKCS1_SHA256).2.2.1 (by decide)).1,
    ((C3_scheme_gates SignatureScheme.RSA_PKCS1_SHA256).2.2.1 (by decide)).2,
    (C3_scheme_gates (SignatureScheme.Unknown 9)).2.2.2.1 (by decide)⟩

/-- Claim C10: the list returned by supported_verify_schemes contains
exactly the schemes the TLS-1.2 gate convert_scheme accepts. -/
theorem C10_supported_schemes_match_tls12_gate (s : SignatureScheme) :
    s ∈ supported_verify_schemes ↔ convert_scheme s = .ok () := by
  cases s <;> simp [supported_verify_schemes, convert_scheme]

/-- Claim C4: for every scheme the TLS-1.3 gate accepts and any
nonempty context and transcript-hash inputs, verify_tls13 hands the
signature engine exactly 64 bytes of 0x20, then the context string,
then the transcript hash, byte for byte, and returns the engine's
(wrapped) verdict. -/
theorem C4_tls13_message_layout
    (vcs : List Nat → List Nat → List Nat → SignatureScheme → Bool → Except WebpkiError Unit)
    (cert : Certificate) (dss : DigitallySignedStruct)
    (handshake_hash context_string_with_0 : List Nat)
    (hgate : convert_alg_tls13 dss.scheme = .ok ())
    (hctx : context_string_with_0 ≠ []) (hhash : handshake_hash ≠ []) :
    verify_tls13 vcs cert dss handshake_hash context_string_with_0 =
      match vcs dss.sig
          (List.replicate 64 0x20 ++ context_string_with_0 ++ handshake_hash)
          cert.bytes dss.scheme true with
      | .error e => .error (TLSError.WebPKIError e)
      | .ok _ => .ok HandshakeSignatureValid.assertion := by
  have hrep : vecResize [] 64 0x20 = List.replicate 64 0x20 := rfl
  simp only [verify_tls13, hgate, hrep]

/-- Claim C4, witness: verify_tls13 on a concrete accepted scheme and
an engine that accepts, evaluated through the theorem. -/
theorem C4_tls13_message_layout_witness :
    verify_tls13 (fun _ _ _ _ _ => Except.ok ()) ⟨[1]⟩
      ⟨SignatureScheme.RSA_PSS_SHA256, [2]⟩ [7] [0] =
      Except.ok HandshakeSignatureValid.assertion := by
  have h := C4_tls13_message_layout (fun _ _ _ _ _ => Except.ok ()) ⟨[1]⟩
    ⟨SignatureScheme.RSA_PSS_SHA256, [2]⟩ [7] [0] rfl (by decide) (by decide)
  exact h.trans rfl

/-- Claim C5: on an empty presented-certificate sequence, prepare fails
with NoCertificatesPresented whatever the trust store holds, and so do
verify_server_cert and AllowAnyAuthenticatedClient's verify_client_cert
(the time source is never even consulted). -/
theorem C5_empty_chain_rejected {EE TA Time R : Type}
    (eng : WebpkiEngine EE TA Time R) (roots : RootCertStore R)
    (v : WebPKIVerifier Time) (try_now : Unit → Except TLSError Time)
    (dns_name : String) (ocsp : List Nat) (sni : Option String) :
    prepare eng roots [] = .error TLSError.NoCertificatesPresented ∧
    WebPKIVerifier.verify_server_cert eng v roots [] dns_name ocsp =
      .error TLSError.NoCertificatesPresented ∧
    AllowAnyAuthenticatedClient.verify_client_cert eng try_now ⟨roots⟩ [] sni =
      .error TLSError.NoCertificatesPresented :=
  ⟨rfl, rfl, rfl⟩

/-- Claim C6: on a non-empty presented sequence, prepare parses the
first element as the end-entity certificate (a parse failure surfaces
as a wrapped engine error), returns the remaining elements as the
intermediate chain in their given order, and converts every root of the
store in iteration order. -/
theorem C6_prepare_nonempty {EE TA Time R : Type}
    (eng : WebpkiEngine EE TA Time R) (roots : RootCertStore R)
    (c : Certificate) (rest : List Certificate) :
    (∀ e, eng.endEntityCertFrom c.bytes = .error e →
      prepare eng roots (c :: rest) = .error (TLSError.WebPKIError e)) ∧
    (∀ ee, eng.endEntityCertFrom c.bytes = .ok ee →
      prepare eng roots (c :: rest) =
        .ok (ee, rest.map Certificate.bytes, roots.roots.map eng.toTrustAnchor)) := by
  constructor
  · intro e he
    simp [prepare, he]
  · intro ee he
    simp [prepare, he]

/-- Claim C6, witness: prepare on a concrete three-certificate chain
and a one-root store, keeping order and converting the root. -/
theorem C6_prepare_nonempty_witness :
    prepare (⟨fun _ => Except.ok 0, fun _ _ _ _ _ => Except.ok (),
        fun _ _ _ _ _ => Except.ok (), fun _ _ => Except.ok (),
        fun r => r + 1⟩ : WebpkiEngine Nat Nat Nat Nat)
      ⟨[5]⟩ [⟨[1]⟩, ⟨[2]⟩, ⟨[3]⟩] = Except.ok (0, [[2], [3]], [6]) :=
  (C6_prepare_nonempty _ _ _ _).2 0 rfl

/-- Claim C2: verify_server_cert yields a ServerCertVerified token only
when chain validation against the trust anchors and the DNS-name
binding both succeed; when the chain is trusted but the name does not
bind, it fails with the wrapped path-validation error; a chain
validation failure is likewise wrapped and returned. -/
theorem C2_verify_server_cert_both_checks {EE TA Time R : Type}
    (eng : WebpkiEngine EE TA Time R) (v : WebPKIVerifier Time)
    (roots : RootCertStore R) (presented_certs : List Certificate)
    (dns_name : String) (ocsp : List Nat) :
    (∀ t, WebPKIVerifier.verify_server_cert eng v roots presented_certs dns_name ocsp =
        .ok t →
      ∃ ee chain ta now,
        prepare eng roots presented_certs = .ok (ee, chain, ta) ∧
        v.time () = .ok now ∧
        eng.verifyIsValidTlsServerCert ee SUPPORTED_SIG_ALGS ta chain now = .ok () ∧
        eng.verifyIsValidForDnsName ee dns_name = .ok ()) ∧
    (∀ ee chain ta now e,
      prepare eng roots presented_certs = .ok (ee, chain, ta) →
      v.time () = .ok now →
      eng.verifyIsValidTlsServerCert ee SUPPORTED_SIG_ALGS ta chain now = .ok () →
      eng.verifyIsValidForDnsName ee dns_name = .error e →
      WebPKIVerifier.verify_server_cert eng v roots presented_certs dns_name ocsp =
        .error (TLSError.WebPKIError e)) ∧
    (∀ ee chain ta now e,
      prepare eng roots presented_certs = .ok (ee, chain, ta) →
      v.time () = .ok now →
      eng.verifyIsValidTlsServerCert ee SUPPORTED_SIG_ALGS ta chain now = .error e →
      WebPKIVerifier.verify_server_cert eng v roots presented_certs dns_name ocsp =
        .error (TLSError.WebPKIError e)) := by
  refine ⟨?_, ?_, ?_⟩
  · intro t h
    cases hp : prepare eng roots presented_certs with
    | error e => simp [WebPKIVerifier.verify_server_cert, hp] at h
    | ok x =>
      obtain ⟨ee, chain, ta⟩ := x
      cases ht : v.time () with
      | error e => simp [WebPKIVerifier.verify_server_cert, hp, ht] at h
      | ok now =>
        cases hsv : eng.verifyIsValidTlsServerCert ee SUPPORTED_SIG_ALGS ta chain now with
        | error e => simp [WebPKIVerifier.verify_server_cert, hp, ht, hsv] at h
        | ok u =>
          cases hdns : eng.verifyIsValidForDnsName ee dns_name with
          | error e => simp [WebPKIVerifier.verify_server_cert, hp, ht, hsv, hdns] at h
          | ok u2 =>
            cases u; cases u2
            exact ⟨ee, chain, ta, now, rfl, rfl, hsv, hdns⟩
  · intro ee chain ta now e hp ht hsv hdns
    simp [WebPKIVerifier.verify_server_cert, hp, ht, hsv, hdns]
  · intro ee chain ta now e hp ht hsv
    simp [WebPKIVerifier.verify_server_cert, hp, ht, hsv]

/-- Claim C2, witness: a concrete engine that trusts the chain but
rejects the name binding; verify_server_cert fails with the wrapped
engine error even though chain trust succeeded. -/
theorem C2_verify_server_cert_both_checks_witness :
    WebPKIVerifier.verify_server_cert
      (⟨fun _ => Except.ok (), fun _ _ _ _ _ => Except.ok (),
        fun _ _ _ _ _ => Except.ok (), fun _ _ => Except.error ⟨7⟩,
        fun _ => ()⟩ : WebpkiEngine Unit Unit Unit Unit)
      ⟨fun _ => Except.ok ()⟩ ⟨[]⟩ [⟨[1]⟩] "example.com" [] =
      Except.error (TLSError.WebPKIError ⟨7⟩) :=
  (C2_verify_server_cert_both_checks _ _ _ _ _ _).2.1 () [] [] () ⟨7⟩ rfl rfl rfl rfl

/-- Claim C7 (amended): when the SCT list is empty and the clock
succeeds, verify_scts returns success, and the sct engine is never
consulted (the result does not depend on it); when the trusted-log set
is empty but the SCT list is not, the engine is still invoked, and
verify_scts succeeds provided no failure is classified fatal. -/
theorem C7_empty_scts_or_logs
    (verify_sct verify_sct2 : List Nat → List Nat → Nat → List SctLog → Except SctError Nat)
    (unix_time_millis : Except TLSError Nat)
    (cert : Certificate) (scts : List Sct) (logs : List SctLog) (t : Nat)
    (hnow : unix_time_millis = .ok t)
    (hnf : ∀ x ∈ scts, ∀ e, verify_sct cert.bytes x.bytes t [] = .error e →
      e.should_be_fatal = false) :
    verify_scts verify_sct unix_time_millis cert [] logs = .ok () ∧
    verify_scts verify_sct unix_time_millis cert [] logs =
      verify_scts verify_sct2 unix_time_millis cert [] logs ∧
    verify_scts verify_sct unix_time_millis cert scts [] = .ok () := by
  subst hnow
  refine ⟨?_, rfl, ?_⟩
  · simp [verify_scts, sctLoop]
  · have hloop := sctLoop_ok_of_no_fatal
      (fun x => verify_sct cert.bytes x.bytes t []) scts hnf 0 none
    simp [verify_scts, hloop]

/-- Claim C7, counterexample: with an empty trusted-log set but a
non-empty SCT list, the engine is consulted and a fatal-classified
failure makes verify_scts fail, so the claim's "success and no engine
call whenever either set is empty" does not hold. -/
theorem C7_counterexample :
    verify_scts (fun _ _ _ _ => Except.error ⟨1, true⟩) (Except.ok 0) ⟨[]⟩
      [⟨[]⟩] [] = Except.error (TLSError.InvalidSCT ⟨1, true⟩) := rfl

/-- Claim C7, witness for the amended theorem: concrete empty-SCT-list
and empty-log-set runs that both succeed. -/
theorem C7_empty_scts_or_logs_witness :
    verify_scts (fun _ _ _ _ => Except.ok 0) (Except.ok 0) ⟨[]⟩ [⟨[2]⟩] [] =
      Except.ok () :=
  (C7_empty_scts_or_logs (fun _ _ _ _ => Except.ok 0) (fun _ _ _ _ => Except.ok 0)
    (Except.ok 0) ⟨[]⟩ [⟨[2]⟩] [⟨5⟩] 0 rfl (fun x hx e he => by simp at he)).2.2

/-- Claim C8: when an SCT's failure is classified fatal by the engine
and every earlier SCT in list order did not fail fatally, verify_scts
returns the Invalid-SCT error for that first fatal failure, whatever
SCTs follow it (they are never evaluated). -/
theorem C8_fatal_short_circuit
    (verify_sct : List Nat → List Nat → Nat → List SctLog → Except SctError Nat)
    (cert : Certificate) (logs : List SctLog) (t : Nat)
    (pre : List Sct) (s : Sct) (post : List Sct) (e : SctError)
    (hpre : ∀ x ∈ pre, ∀ e2, verify_sct cert.bytes x.bytes t logs = .error e2 →
      e2.should_be_fatal = false)
    (hs : verify_sct cert.bytes s.bytes t logs = .error e)
    (hf : e.should_be_fatal = true) :
    verify_scts verify_sct (.ok t) cert (pre ++ s :: post) logs =
      .error (TLSError.InvalidSCT e) := by
  have h := sctLoop_fatal (fun x => verify_sct cert.bytes x.bytes t logs)
    pre s post e hpre hs hf 0 none
  simp [verify_scts, h]

/-- Claim C8, witness: a single fatally-failing SCT followed by another
record; verify_scts aborts with the fatal error. -/
theorem C8_fatal_short_circuit_witness :
    verify_scts (fun _ _ _ _ => Except.error ⟨3, true⟩) (Except.ok 0) ⟨[]⟩
      [⟨[1]⟩, ⟨[2]⟩] [⟨0⟩] = Except.error (TLSError.InvalidSCT ⟨3, true⟩) :=
  C8_fatal_short_circuit _ _ _ _ [] ⟨[1]⟩ [⟨[2]⟩] ⟨3, true⟩
    (fun x hx => absurd hx (List.not_mem_nil x)) rfl rfl

/-- Claim C9: with non-empty trusted logs and SCT list and no
fatal-classified failure, verify_scts succeeds iff at least one record
validated, and when none validated it fails with the last recorded
non-fatal error. -/
theorem C9_zero_valid_scts_fails
    (verify_sct : List Nat → List Nat → Nat → List SctLog → Except SctError Nat)
    (cert : Certificate) (scts : List Sct) (logs : List SctLog) (t : Nat)
    (hscts : scts ≠ []) (hlogs : logs ≠ [])
    (hnf : ∀ x ∈ scts, ∀ e, verify_sct cert.bytes x.bytes t logs = .error e →
      e.should_be_fatal = false) :
    (verify_scts verify_sct (.ok t) cert scts logs = .ok () ↔
      sctValidCount (fun x => verify_sct cert.bytes x.bytes t logs) scts ≠ 0) ∧
    (sctValidCount (fun x => verify_sct cert.bytes x.bytes t logs) scts = 0 →
      ∃ e, sctLastError (fun x => verify_sct cert.bytes x.bytes t logs) scts = some e ∧
        verify_scts verify_sct (.ok t) cert scts logs =
          .error (TLSError.InvalidSCT e)) := by
  have hloop := sctLoop_ok_of_no_fatal
    (fun x => verify_sct cert.bytes x.bytes t logs) scts hnf 0 none
  by_cases hz : sctValidCount (fun x => verify_sct cert.bytes x.bytes t logs) scts = 0
  · obtain ⟨e, he⟩ := sctErrFold_some_of_no_valid
      (fun x => verify_sct cert.bytes x.bytes t logs) scts hscts hz
    have hres : verify_scts verify_sct (.ok t) cert scts logs =
        .error (TLSError.InvalidSCT e) := by
      rw [sctLastError] at he
      simp [verify_scts, hloop, hz, hscts, hlogs, he]
    constructor
    · rw [hres]
      constructor
      · intro hok; simp at hok
      · intro hne; exact absurd hz hne
    · intro _
      exact ⟨e, he, hres⟩
  · have hres : verify_scts verify_sct (.ok t) cert scts logs = .ok () := by
      simp [verify_scts, hloop, hz]
    rw [hres]
    constructor
    · constructor
      · intro _; exact hz
      · intro _; rfl
    · intro h; exact absurd h hz

/-- Claim C9, witness: one non-fatal unknown-log failure followed by a
valid record; one valid SCT is sufficient for success. -/
theorem C9_zero_valid_scts_fails_witness :
    verify_scts
      (fun _ b _ _ => if b = [2] then Except.ok 0 else Except.error ⟨5, false⟩)
      (Except.ok 0) ⟨[]⟩ [⟨[1]⟩, ⟨[2]⟩] [⟨0⟩] = Except.ok () := by
  refine (C9_zero_valid_scts_fails
    (fun _ b _ _ => if b = [2] then Except.ok 0 else Except.error ⟨5, false⟩)
    ⟨[]⟩ [⟨[1]⟩, ⟨[2]⟩] [⟨0⟩] 0 (by decide) (by decide) ?_).1.mpr (by decide)
  intro x hx e he
  fin_cases hx <;> simp_all
  subst he
  rfl
